import Mathlib

/-!
Verification development for the tenant-operator reconciler of the
k8s-hybrid-cloud repository (`Reconcile` in the tenant operator's main file).

The Go reconciler builds four child resources from the request name and
issues one `Create` call per resource against the cluster client, in the
fixed order Namespace, ResourceQuota, NetworkPolicy, RoleBinding.  After
each call it inspects the error: a nil error or an `AlreadyExists` error
lets the pass continue; any other error aborts the pass and is returned.

The embedding below keeps the Go struct and function names.  Resource
quantities built with `resource.MustParse` are kept as the literal strings
the source passes to `MustParse` ("10", "20Gi", ...).  The cluster client
is a parameter: a state-passing function from a child resource to the
result of the create call, so that theorems can quantify over every
possible sequence of store responses, and a concrete in-memory store
(`storeCreate`) instantiates it for the idempotence claims.
-/

namespace TenantOperator

/-- `TenantQuota` from the operator source (fields `cpu`, `memory`, `pods`,
`pvcs`, `services`); Go zero values model absent (`omitempty`) fields. -/
structure TenantQuota where
  cpu : String := ""
  memory : String := ""
  pods : Int := 0
  pvcs : Int := 0
  services : Int := 0
  deriving Repr, DecidableEq

/-- `TenantSpec` from the operator source: owner, costCenter, quota,
allowedIntegrations, contacts (the Go map modelled as an association list). -/
structure TenantSpec where
  owner : String
  costCenter : String := ""
  quota : TenantQuota := {}
  allowedIntegrations : List String := []
  contacts : List (String × String) := []
  deriving Repr, DecidableEq

/-- `TenantStatus` from the operator source.  The Go struct declares
`Phase`, `NamespaceCreated`, `QuotaApplied`, `NetworkPolicyApplied`,
`RBACApplied` and nothing else (in particular no lastError field). -/
structure TenantStatus where
  phase : String := ""
  namespaceCreated : Bool := false
  quotaApplied : Bool := false
  networkPolicyApplied : Bool := false
  rbacApplied : Bool := false
  deriving Repr, DecidableEq

/-- A Tenant custom resource: a named object carrying a `TenantSpec`.
The reconcile request for a Tenant carries only its name
(`req.Name`, read at the top of `Reconcile`); the reconciler never
fetches the object, so the spec is visible only through this record. -/
structure Tenant where
  name : String
  spec : TenantSpec
  deriving Repr, DecidableEq

/-- `metav1.ObjectMeta` restricted to the fields the operator sets:
name, namespace (empty for cluster-scoped objects) and labels
(the Go label map modelled as an association list in source order). -/
structure ObjectMeta where
  name : String
  namespaceName : String := ""
  labels : List (String × String) := []
  deriving Repr, DecidableEq

/-- `corev1.Namespace` restricted to the fields the operator sets. -/
structure NamespaceObj where
  metadata : ObjectMeta
  deriving Repr, DecidableEq

/-- `corev1.ResourceQuotaSpec`: the `Hard` resource list, keyed by the
string values of the `corev1.Resource*` constants. -/
structure ResourceQuotaSpec where
  hard : List (String × String)
  deriving Repr, DecidableEq

/-- `corev1.ResourceQuota` restricted to the fields the operator sets. -/
structure ResourceQuota where
  metadata : ObjectMeta
  spec : ResourceQuotaSpec
  deriving Repr, DecidableEq

/-- `metav1.LabelSelector`; the operator only ever uses the empty selector. -/
structure LabelSelector where
  matchLabels : List (String × String) := []
  deriving Repr, DecidableEq

/-- `networkingv1.NetworkPolicySpec` restricted to the fields the operator
sets: pod selector and policy types (string values of `PolicyType`). -/
structure NetworkPolicySpec where
  podSelector : LabelSelector
  policyTypes : List String
  deriving Repr, DecidableEq

/-- `networkingv1.NetworkPolicy` restricted to the fields the operator sets. -/
structure NetworkPolicy where
  metadata : ObjectMeta
  spec : NetworkPolicySpec
  deriving Repr, DecidableEq

/-- `rbacv1.Subject`. -/
structure Subject where
  kind : String
  name : String
  apiGroup : String
  deriving Repr, DecidableEq

/-- `rbacv1.RoleRef`. -/
structure RoleRef where
  kind : String
  name : String
  apiGroup : String
  deriving Repr, DecidableEq

/-- `rbacv1.RoleBinding` restricted to the fields the operator sets. -/
structure RoleBinding where
  metadata : ObjectMeta
  subjects : List Subject
  roleRef : RoleRef
  deriving Repr, DecidableEq

/-- The four child-resource kinds the reconciler creates, each carrying
the typed object passed to the client's `Create` call. -/
inductive ChildResource where
  | ns (v : NamespaceObj)
  | quota (v : ResourceQuota)
  | netpol (v : NetworkPolicy)
  | rb (v : RoleBinding)
  deriving Repr, DecidableEq

/-- Outcome of one client `Create` call, following the store interface:
`created` is a nil error, `alreadyExists` is an error for which
`errors.IsAlreadyExists` holds, `error c` is any other error with cause
string `c`. -/
inductive CreateResult where
  | created
  | alreadyExists
  | error (cause : String)
  deriving Repr, DecidableEq

/-- `true` exactly when the Go error check
`err != nil && !errors.IsAlreadyExists(err)` would take the abort branch. -/
def CreateResult.isHardError : CreateResult → Bool
  | .error _ => true
  | _ => false

/-- One operation the reconciler can perform against the external store.
The controller-runtime client also offers reads (`Get`/`List`) and status
writes (`Status().Update`); they are listed here so that theorems can say
the reconciler never performs them. -/
inductive Op where
  | create (obj : ChildResource) (result : CreateResult)
  | get (namespaceName : String) (name : String)
  | statusWrite (st : TenantStatus)
  deriving Repr, DecidableEq

/-- Is this operation a create call? -/
def Op.isCreate : Op → Bool
  | .create _ _ => true
  | _ => false

/-- Is this operation a read? -/
def Op.isGet : Op → Bool
  | .get _ _ => true
  | _ => false

/-- Is this operation a status write? -/
def Op.isStatusWrite : Op → Bool
  | .statusWrite _ => true
  | _ => false

/-- The object a create operation carries, if any. -/
def Op.obj : Op → Option ChildResource
  | .create o _ => some o
  | _ => none

/-- The result a create operation received, if any. -/
def Op.result : Op → Option CreateResult
  | .create _ r => some r
  | _ => none

/-- Did this operation end in a hard (non-AlreadyExists) failure? -/
def Op.isHardError : Op → Bool
  | .create _ r => r.isHardError
  | _ => false

/-- A cluster client: given the client state and the object of a create
call, return the call's outcome and the new state. -/
def Client (σ : Type) : Type := σ → ChildResource → CreateResult × σ

/-- The Namespace object built at the top of `Reconcile`: named after the
tenant and labelled with the tenant-identity, Istio-injection and
pod-security labels. -/
def mkNamespace (tenantName : String) : NamespaceObj :=
  { metadata :=
    { name := tenantName
      labels :=
        [("platform.xyz.com/tenant", tenantName),
         ("istio-injection", "enabled"),
         ("pod-security.kubernetes.io/enforce", "restricted")] } }

/-- The ResourceQuota object built by `Reconcile`: name `tenant-quota` in
the tenant's namespace, with hard limits fixed to the platform defaults
(the `resource.MustParse` literals of the source). -/
def mkResourceQuota (tenantName : String) : ResourceQuota :=
  { metadata := { name := "tenant-quota", namespaceName := tenantName }
    spec :=
    { hard :=
        [("requests.cpu", "10"),
         ("requests.memory", "20Gi"),
         ("limits.cpu", "20"),
         ("limits.memory", "40Gi"),
         ("pods", "100")] } }

/-- The default-deny NetworkPolicy object built by `Reconcile`. -/
def mkNetworkPolicy (tenantName : String) : NetworkPolicy :=
  { metadata := { name := "default-deny-ingress", namespaceName := tenantName }
    spec := { podSelector := {}, policyTypes := ["Ingress"] } }

/-- The RoleBinding object built by `Reconcile`: `<tenant>-developers`,
binding the group `<tenant>-team` to the `edit` ClusterRole. -/
def mkRoleBinding (tenantName : String) : RoleBinding :=
  { metadata := { name := tenantName ++ "-developers", namespaceName := tenantName }
    subjects :=
      [{ kind := "Group", name := tenantName ++ "-team"
         apiGroup := "rbac.authorization.k8s.io" }]
    roleRef :=
      { kind := "ClusterRole", name := "edit"
        apiGroup := "rbac.authorization.k8s.io" } }

/-- `TenantReconciler.Reconcile`, translated statement by statement from
the operator source.  `reqName` is `req.Name`; `client` stands for
`r.Create` with its state threaded explicitly.  The function returns the
trace of store operations it performed, the error it returns (`none`
models a nil error, so the Go result is `(ctrl.Result{}, err)`), and the
final client state.  Each create is followed by the source's check: a
hard (non-AlreadyExists) error returns immediately, otherwise the pass
continues to the next resource. -/
def Reconcile (client : Client σ) (reqName : String) (s : σ) :
    List Op × Option String × σ :=
  let tenantName := reqName
  let nsObj := ChildResource.ns (mkNamespace tenantName)
  match client s nsObj with
  | (CreateResult.error e, s1) =>
      ([Op.create nsObj (CreateResult.error e)], some e, s1)
  | (r1, s1) =>
    let quotaObj := ChildResource.quota (mkResourceQuota tenantName)
    match client s1 quotaObj with
    | (CreateResult.error e, s2) =>
        ([Op.create nsObj r1, Op.create quotaObj (CreateResult.error e)],
         some e, s2)
    | (r2, s2) =>
      let netpolObj := ChildResource.netpol (mkNetworkPolicy tenantName)
      match client s2 netpolObj with
      | (CreateResult.error e, s3) =>
          ([Op.create nsObj r1, Op.create quotaObj r2,
            Op.create netpolObj (CreateResult.error e)], some e, s3)
      | (r3, s3) =>
        let rbObj := ChildResource.rb (mkRoleBinding tenantName)
        match client s3 rbObj with
        | (CreateResult.error e, s4) =>
            ([Op.create nsObj r1, Op.create quotaObj r2, Op.create netpolObj r3,
              Op.create rbObj (CreateResult.error e)], some e, s4)
        | (r4, s4) =>
            ([Op.create nsObj r1, Op.create quotaObj r2, Op.create netpolObj r3,
              Op.create rbObj r4], none, s4)

/-- A reconciliation pass for a Tenant object: controller-runtime hands
`Reconcile` a request carrying the object's name, and the reconciler reads
nothing else of the Tenant. -/
def ReconcileTenant (client : Client σ) (t : Tenant) (s : σ) :
    List Op × Option String × σ :=
  Reconcile client t.name s

/-- The kind of a child resource (part of its identity in the store). -/
inductive Kind where
  | ns
  | quota
  | netpol
  | rb
  deriving Repr, DecidableEq

/-- The kind of a child-resource object. -/
def kindOf : ChildResource → Kind
  | .ns _ => .ns
  | .quota _ => .quota
  | .netpol _ => .netpol
  | .rb _ => .rb

/-- The metadata of a child-resource object. -/
def metaOf : ChildResource → ObjectMeta
  | .ns v => v.metadata
  | .quota v => v.metadata
  | .netpol v => v.metadata
  | .rb v => v.metadata

/-- The store identity of an object: kind, namespace and name, the key by
which the API server detects an `AlreadyExists` conflict. -/
def objKey (o : ChildResource) : Kind × String × String :=
  (kindOf o, (metaOf o).namespaceName, (metaOf o).name)

/-- Do two objects collide in the store (same kind, namespace and name)? -/
def sameKey (p o : ChildResource) : Bool :=
  objKey p == objKey o

/-- The in-memory store: the list of objects currently present. -/
abbrev Store := List ChildResource

/-- The store's create operation: reject with `alreadyExists` when an
object with the same key is present, otherwise add the object. -/
def storeCreate : Client Store := fun s o =>
  if s.any (fun p => sameKey p o) then (CreateResult.alreadyExists, s)
  else (CreateResult.created, s ++ [o])

/-- The hard-limit list of the ResourceQuota created by a pass: the object
of the second create operation in the trace, when it is a ResourceQuota. -/
def quotaHardOf (ops : List Op) : Option (List (String × String)) :=
  match (ops.filterMap Op.obj).get? 1 with
  | some (ChildResource.quota q) => some q.spec.hard
  | _ => none

/-- The four child resources of a tenant in the order the source creates
them: Namespace, ResourceQuota, NetworkPolicy, RoleBinding. -/
def desiredResources (tenantName : String) : List ChildResource :=
  [ChildResource.ns (mkNamespace tenantName),
   ChildResource.quota (mkResourceQuota tenantName),
   ChildResource.netpol (mkNetworkPolicy tenantName),
   ChildResource.rb (mkRoleBinding tenantName)]

/-- A client whose every create call fails with the same hard error. -/
def failingClient (cause : String) : Client Unit := fun _ _ =>
  (CreateResult.error cause, ())

/-- The Tenant of the spec's quota-override scenario: named `candidate`,
with `quota.pods = 200` and every other quota field unset. -/
def candidateTenant : Tenant :=
  { name := "candidate"
    spec := { owner := "platform", quota := { pods := 200 } } }

/-- A Tenant whose quota carries an unparsable quantity string. -/
def badQuotaTenant : Tenant :=
  { name := "acme"
    spec := { owner := "o", quota := { cpu := "not-a-number" } } }

/-- Claim C1: if the Namespace create returns a non-AlreadyExists error,
the pass aborts immediately with that failure as the overall cause, and no
create call for ResourceQuota, NetworkPolicy, or RoleBinding is issued:
the whole pass is exactly the one failed Namespace create. -/
theorem namespace_failure_aborts_pass {σ : Type} (client : Client σ)
    (s s' : σ) (name e : String)
    (h : client s (ChildResource.ns (mkNamespace name)) = (CreateResult.error e, s')) :
    Reconcile client name s =
      ([Op.create (ChildResource.ns (mkNamespace name)) (CreateResult.error e)],
       some e, s') := by
  simp [Reconcile, h]

/-- Witness for C1: a concrete always-failing client at tenant `acme`. -/
theorem namespace_failure_aborts_pass_witness :
    Reconcile (failingClient "boom") "acme" () =
      ([Op.create (ChildResource.ns (mkNamespace "acme")) (CreateResult.error "boom")],
       some "boom", ()) :=
  namespace_failure_aborts_pass (failingClient "boom") () () "acme" "boom" rfl

/-- Claim C2: running two passes in succession for the same Tenant against
the in-memory store yields: both passes succeed, the second pass issues
creates with exactly the same child-resource field values, each of its
four create calls receives AlreadyExists (treated as success), and the
store is unchanged by the second pass (no duplicate objects). -/
theorem second_pass_idempotent (t : Tenant) :
    (ReconcileTenant storeCreate t []).2.1 = none ∧
    (ReconcileTenant storeCreate t ((ReconcileTenant storeCreate t []).2.2)).2.1 = none ∧
    ((ReconcileTenant storeCreate t ((ReconcileTenant storeCreate t []).2.2)).1.filterMap Op.obj
      = (ReconcileTenant storeCreate t []).1.filterMap Op.obj) ∧
    ((ReconcileTenant storeCreate t ((ReconcileTenant storeCreate t []).2.2)).1.map Op.result
      = [some CreateResult.alreadyExists, some CreateResult.alreadyExists,
         some CreateResult.alreadyExists, some CreateResult.alreadyExists]) ∧
    ((ReconcileTenant storeCreate t ((ReconcileTenant storeCreate t []).2.2)).2.2
      = (ReconcileTenant storeCreate t []).2.2) := by
  refine ⟨?_, ?_, ?_, ?_, ?_⟩ <;>
    simp [ReconcileTenant, Reconcile, storeCreate, sameKey, objKey, kindOf, metaOf,
      mkNamespace, mkResourceQuota, mkNetworkPolicy, mkRoleBinding, Op.obj, Op.result]

/-- Claim C3: for every Tenant whose quota fields are all unset, the
ResourceQuota created by a pass from an empty store carries exactly the
platform defaults: CPU request 10, memory request 20Gi, CPU limit 20,
memory limit 40Gi, pods 100. -/
theorem default_quota_when_unset (t : Tenant) (h : t.spec.quota = {}) :
    quotaHardOf (ReconcileTenant storeCreate t []).1
      = some [("requests.cpu", "10"), ("requests.memory", "20Gi"),
              ("limits.cpu", "20"), ("limits.memory", "40Gi"), ("pods", "100")] := by
  simp [ReconcileTenant, Reconcile, storeCreate, sameKey, objKey, kindOf, metaOf,
    mkNamespace, mkResourceQuota, mkNetworkPolicy, mkRoleBinding, quotaHardOf, Op.obj]

/-- Witness for C3 at a concrete Tenant with an unset quota. -/
theorem default_quota_when_unset_witness :
    quotaHardOf (ReconcileTenant storeCreate ⟨"acme", { owner := "o" }⟩ []).1
      = some [("requests.cpu", "10"), ("requests.memory", "20Gi"),
              ("limits.cpu", "20"), ("limits.memory", "40Gi"), ("pods", "100")] :=
  default_quota_when_unset ⟨"acme", { owner := "o" }⟩ rfl

/-- Counterexample to claim C4: for the Tenant `candidate` with
`quota.pods = 200`, the ResourceQuota the pass creates does NOT carry a
pods hard limit of 200 (the source hardcodes the defaults and never reads
the Tenant's quota). -/
theorem candidate_pods_override_ignored :
    ¬ ((quotaHardOf (ReconcileTenant storeCreate candidateTenant []).1).bind
        (fun hard => hard.lookup "pods") = some "200") := by
  decide

/-- Claim C4 as amended: for the Tenant `candidate` with `quota.pods = 200`
and no other quota fields, the pass creates a ResourceQuota whose hard
limits are entirely the platform defaults — including pods = 100; the
pods = 200 override is ignored. -/
theorem candidate_pods_quota_is_default :
    quotaHardOf (ReconcileTenant storeCreate candidateTenant []).1
      = some [("requests.cpu", "10"), ("requests.memory", "20Gi"),
              ("limits.cpu", "20"), ("limits.memory", "40Gi"), ("pods", "100")] := by
  decide

/-- Counterexample to claim C5: for a Tenant with quota.cpu set to the
unparsable string `not-a-number`, it is false that the pass issues no
external create call and performs a status write marking the phase Failed:
the pass does issue create calls and performs no status write at all. -/
theorem bad_quota_not_short_circuited :
    ¬ (((ReconcileTenant storeCreate badQuotaTenant []).1.countP Op.isCreate = 0) ∧
       ((ReconcileTenant storeCreate badQuotaTenant []).1.any
          (fun op => match op with
            | Op.statusWrite st => st.phase == "Failed"
            | _ => false) = true)) := by
  decide

/-- Claim C5 as amended: the reconciler never validates the Tenant spec; a
pass for a Tenant whose quota.cpu is unparsable behaves exactly like a
pass for a Tenant of the same name with no quota at all — it issues the
usual four creates, succeeds, and writes no status. -/
theorem bad_quota_has_no_effect :
    (ReconcileTenant storeCreate badQuotaTenant [] =
       ReconcileTenant storeCreate ⟨"acme", { owner := "o" }⟩ []) ∧
    (ReconcileTenant storeCreate badQuotaTenant []).1.countP Op.isCreate = 4 ∧
    (ReconcileTenant storeCreate badQuotaTenant []).1.all
      (fun op => !op.isStatusWrite) = true ∧
    (ReconcileTenant storeCreate badQuotaTenant []).2.1 = none := by
  decide

/-- Claim C9: the operations of a pass, and every field of every child
resource it creates, depend only on the request's name: two Tenants with
equal names but arbitrary different specs produce identical passes against
any client in any state. -/
theorem pass_depends_only_on_name {σ : Type} (client : Client σ) (s : σ)
    (t1 t2 : Tenant) (h : t1.name = t2.name) :
    ReconcileTenant client t1 s = ReconcileTenant client t2 s := by
  unfold ReconcileTenant
  rw [h]

/-- Witness for C9: two Tenants named `acme` whose owner, costCenter,
quota, allowedIntegrations and contacts all differ produce the same pass. -/
theorem pass_depends_only_on_name_witness :
    ReconcileTenant storeCreate
      ⟨"acme", { owner := "alpha", costCenter := "cc1",
                 quota := { cpu := "4", memory := "8Gi", pods := 10, pvcs := 1, services := 2 },
                 allowedIntegrations := ["hirer"], contacts := [("oncall", "a@xyz")] }⟩ [] =
    ReconcileTenant storeCreate
      ⟨"acme", { owner := "beta" }⟩ [] :=
  pass_depends_only_on_name storeCreate []
    ⟨"acme", { owner := "alpha", costCenter := "cc1",
               quota := { cpu := "4", memory := "8Gi", pods := 10, pvcs := 1, services := 2 },
               allowedIntegrations := ["hirer"], contacts := [("oncall", "a@xyz")] }⟩
    ⟨"acme", { owner := "beta" }⟩ rfl

/-- Counterexample to claim C6: a concrete pass in which all four creates
succeed, yet no status write of any kind is performed (so no write sets
phase Ready, the applied flags, or clears lastError). -/
theorem successful_pass_writes_no_status :
    ((Reconcile storeCreate "acme" []).2.1 = none) ∧
    ((Reconcile storeCreate "acme" []).1.all (fun op => !op.isHardError) = true) ∧
    ¬ ((Reconcile storeCreate "acme" []).1.any Op.isStatusWrite = true) := by
  decide

/-- Claim C6 as amended: no reconciliation pass ever performs a status
write, whatever the client, its state, or the tenant name; the
`TenantStatus` struct is declared by the source but never written. -/
theorem no_status_write_ever {σ : Type} (client : Client σ) (s : σ)
    (name : String) :
    (Reconcile client name s).1.all (fun op => !op.isStatusWrite) = true := by
  unfold Reconcile
  rcases h1 : client s (ChildResource.ns (mkNamespace name)) with ⟨r1, s1⟩
  cases r1 <;> simp only [h1] <;>
    first
      | (simp [Op.isStatusWrite]; done)
      | (rcases h2 : client s1 (ChildResource.quota (mkResourceQuota name)) with ⟨r2, s2⟩
         cases r2 <;> simp only [h2] <;>
           first
             | (simp [Op.isStatusWrite]; done)
             | (rcases h3 : client s2 (ChildResource.netpol (mkNetworkPolicy name)) with ⟨r3, s3⟩
                cases r3 <;> simp only [h3] <;>
                  first
                    | (simp [Op.isStatusWrite]; done)
                    | (rcases h4 : client s3 (ChildResource.rb (mkRoleBinding name)) with ⟨r4, s4⟩
                       cases r4 <;> simp only [h4] <;> simp [Op.isStatusWrite])))

/-- Claim C7: whatever the client and its state, the first operation of a
pass is the create of a Namespace named after the tenant and labelled with
the tenant-identity, Istio-injection, and pod-security labels. -/
theorem first_create_is_labelled_namespace {σ : Type} (client : Client σ)
    (s : σ) (name : String) :
    ((Reconcile client name s).1.head?.bind Op.obj)
      = some (ChildResource.ns
          { metadata :=
            { name := name
              namespaceName := ""
              labels := [("platform.xyz.com/tenant", name),
                         ("istio-injection", "enabled"),
                         ("pod-security.kubernetes.io/enforce", "restricted")] } }) := by
  unfold Reconcile
  rcases h1 : client s (ChildResource.ns (mkNamespace name)) with ⟨r1, s1⟩
  cases r1 <;> simp only [h1] <;>
    first
      | (simp [Op.obj, mkNamespace]; done)
      | (rcases h2 : client s1 (ChildResource.quota (mkResourceQuota name)) with ⟨r2, s2⟩
         cases r2 <;> simp only [h2] <;>
           first
             | (simp [Op.obj, mkNamespace]; done)
             | (rcases h3 : client s2 (ChildResource.netpol (mkNetworkPolicy name)) with ⟨r3, s3⟩
                cases r3 <;> simp only [h3] <;>
                  first
                    | (simp [Op.obj, mkNamespace]; done)
                    | (rcases h4 : client s3 (ChildResource.rb (mkRoleBinding name)) with ⟨r4, s4⟩
                       cases r4 <;> simp only [h4] <;> simp [Op.obj, mkNamespace])))

/-- Claim C8: a pass performs at most four operations, every one of them a
create (no reads, no status writes), and no two creates are for the same
child-resource kind — at most one create per kind. -/
theorem at_most_one_create_per_kind {σ : Type} (client : Client σ) (s : σ)
    (name : String) :
    (Reconcile client name s).1.length ≤ 4 ∧
    (Reconcile client name s).1.all Op.isCreate = true ∧
    (((Reconcile client name s).1.filterMap Op.obj).map kindOf).Nodup := by
  unfold Reconcile
  rcases h1 : client s (ChildResource.ns (mkNamespace name)) with ⟨r1, s1⟩
  cases r1 <;> simp only [h1] <;>
    first
      | (simp [Op.isCreate, Op.obj, kindOf]; done)
      | (rcases h2 : client s1 (ChildResource.quota (mkResourceQuota name)) with ⟨r2, s2⟩
         cases r2 <;> simp only [h2] <;>
           first
             | (simp [Op.isCreate, Op.obj, kindOf]; done)
             | (rcases h3 : client s2 (ChildResource.netpol (mkNetworkPolicy name)) with ⟨r3, s3⟩
                cases r3 <;> simp only [h3] <;>
                  first
                    | (simp [Op.isCreate, Op.obj, kindOf]; done)
                    | (rcases h4 : client s3 (ChildResource.rb (mkRoleBinding name)) with ⟨r4, s4⟩
                       cases r4 <;> simp only [h4] <;> simp [Op.isCreate, Op.obj, kindOf])))

/-- Claim C10: a pass returns an error exactly when some create call
failed with a non-AlreadyExists error; in that case the returned cause is
the first such failure in the order Namespace, ResourceQuota,
NetworkPolicy, RoleBinding — the failed create is the last operation of
the pass, everything before it succeeded, and the objects created are an
initial segment of the desired four, so every later kind is suppressed. -/
theorem error_is_first_hard_failure {σ : Type} (client : Client σ) (s : σ)
    (name : String) :
    ((Reconcile client name s).2.1 = none ↔
       (Reconcile client name s).1.all (fun op => !op.isHardError) = true) ∧
    (∀ e, (Reconcile client name s).2.1 = some e →
       ((Reconcile client name s).1.getLast?.bind Op.result
          = some (CreateResult.error e)) ∧
       (Reconcile client name s).1.dropLast.all (fun op => !op.isHardError) = true ∧
       (Reconcile client name s).1.filterMap Op.obj
         = (desiredResources name).take (Reconcile client name s).1.length) := by
  unfold Reconcile
  rcases h1 : client s (ChildResource.ns (mkNamespace name)) with ⟨r1, s1⟩
  cases r1 <;> simp only [h1] <;>
    first
      | (simp [Op.isHardError, CreateResult.isHardError, Op.result, Op.obj,
          desiredResources]; done)
      | (rcases h2 : client s1 (ChildResource.quota (mkResourceQuota name)) with ⟨r2, s2⟩
         cases r2 <;> simp only [h2] <;>
           first
             | (simp [Op.isHardError, CreateResult.isHardError, Op.result, Op.obj,
                 desiredResources]; done)
             | (rcases h3 : client s2 (ChildResource.netpol (mkNetworkPolicy name)) with ⟨r3, s3⟩
                cases r3 <;> simp only [h3] <;>
                  first
                    | (simp [Op.isHardError, CreateResult.isHardError, Op.result, Op.obj,
                        desiredResources]; done)
                    | (rcases h4 : client s3 (ChildResource.rb (mkRoleBinding name)) with ⟨r4, s4⟩
                       cases r4 <;> simp only [h4] <;>
                         simp [Op.isHardError, CreateResult.isHardError, Op.result, Op.obj,
                           desiredResources])))

/-- Witness for C10: with a client that fails every create, the pass for
`acme` ends at the failed Namespace create, nothing precedes it, and the
created objects are the length-one initial segment of the desired four. -/
theorem error_is_first_hard_failure_witness :
    ((Reconcile (failingClient "boom") "acme" ()).1.getLast?.bind Op.result
       = some (CreateResult.error "boom")) ∧
    (Reconcile (failingClient "boom") "acme" ()).1.dropLast.all
      (fun op => !op.isHardError) = true ∧
    (Reconcile (failingClient "boom") "acme" ()).1.filterMap Op.obj
      = (desiredResources "acme").take (Reconcile (failingClient "boom") "acme" ()).1.length :=
  (error_is_first_hard_failure (failingClient "boom") () "acme").2 "boom" rfl

end TenantOperator
